import Mathlib

/-!
Shallow embedding of the SiteX road-graph accessibility engine.

The embedding follows the Python sources:
  backend/app/lib/road_network.py        (RoadNetwork)
  backend/app/lib/road_type_network.py   (RoadTypeNetwork)
  backend/app/services/site_analysis_service.py  (SiteAnalysisService)
  backend/app/api/endpoints/road_types.py (get_road_types)

Modelling conventions:
  - Python floats are modelled as exact rationals (ℚ); the decay weight
    function, which multiplies by a real exponential, is modelled over ℝ.
  - The geodesic (haversine) distance is transcendental, so every function
    that calls it takes the distance function `hav` as an explicit
    parameter; all theorems hold for every such function.
  - `float("inf")` snap tolerances are modelled by `WithTop ℚ`.
  - The call `nx.single_source_dijkstra_path_length(graph, s, cutoff, w)`
    is modelled by its documented contract: the resulting map contains a
    node exactly when its shortest-path distance from `s` is ≤ cutoff, and
    maps it to that distance.  With the nonnegative edge weights produced
    by the graph builder, the shortest-path distance equals the minimum
    weight over simple paths, which is how `dist_to` computes it.
  - File-system state (cache files, modification times, pickling) is
    modelled by a record of the boolean outcomes of the individual checks
    the code performs.
-/

namespace SiteX

/-- Coordinates: exact rational stand-ins for float latitude/longitude. -/
abbrev Point := ℚ × ℚ

/-- Squared lat/lon difference, the metric of the linear-scan branch of
`RoadNetwork._nearest_node_index` (the `cKDTree` branch queries the nearest
node under the same Euclidean metric). -/
def sq_dist (p q : Point) : ℚ := (p.1 - q.1) ^ 2 + (p.2 - q.2) ^ 2

/-- Index of the first minimum of a list, as `np.argmin` computes it:
a later element replaces the current best only when strictly smaller. -/
def argmin_aux : List ℚ → Nat → Nat → ℚ → Nat
  | [], _, besti, _ => besti
  | x :: rest, i, besti, best =>
    if x < best then argmin_aux rest (i + 1) i x
    else argmin_aux rest (i + 1) besti best

/-- Embedding of `RoadNetwork._nearest_node_index` (identical in
`RoadTypeNetwork`): `None` for an empty node table, otherwise the index of
the node minimising the squared coordinate difference. -/
def nearest_node_index (coords : List Point) (p : Point) : Option Nat :=
  match coords with
  | [] => none
  | c :: rest => some (argmin_aux (rest.map (sq_dist p)) 1 0 (sq_dist p c))

/-- Embedding of `snap_point`, shared verbatim by `RoadNetwork.snap_point`
and `RoadTypeNetwork.snap_point`: nearest node, geodesic offset `dist`,
threshold = explicit `max_snap_m` or the configured tolerance, and the test
`if threshold <= 0.0 or dist <= threshold`.  The result pairs node index
and offset; `none` is the `(None, None)` "unsnapped" outcome. -/
def snap_core (hav : Point → Point → ℚ) (coords : List Point)
    (snap_tolerance_m : ℚ) (lat lon : ℚ) (max_snap_m : Option (WithTop ℚ)) :
    Option (Nat × ℚ) :=
  if coords.length = 0 then none
  else
    match nearest_node_index coords (lat, lon) with
    | none => none
    | some idx =>
      let c := coords.getD idx (0, 0)
      let dist := hav (lat, lon) c
      let threshold := max_snap_m.getD ((snap_tolerance_m : WithTop ℚ))
      if threshold ≤ ((0 : ℚ) : WithTop ℚ) ∨ ((dist : WithTop ℚ)) ≤ threshold then
        some (idx, dist)
      else none

/-! Shortest paths.  `nx.single_source_dijkstra_path_length` with a cutoff is
modelled as: shortest distance over simple paths, kept only when ≤ cutoff. -/

/-- Neighbours of `u` in an undirected edge list. -/
def neighbors (es : List ((Nat × Nat) × ℚ)) (u : Nat) : List Nat :=
  es.foldr
    (fun e acc =>
      if e.1.1 = u then e.1.2 :: acc
      else if e.1.2 = u then e.1.1 :: acc
      else acc)
    []

/-- Weights of the edges joining `u` and `v` (the builder keeps one minimal
edge per pair; the list form tolerates duplicates). -/
def edge_weights (es : List ((Nat × Nat) × ℚ)) (u v : Nat) : List ℚ :=
  es.filterMap
    (fun e =>
      if (e.1.1 = u ∧ e.1.2 = v) ∨ (e.1.1 = v ∧ e.1.2 = u) then some e.2
      else none)

/-- Weight of the cheapest edge joining `u` and `v`, 0 when none exists
(only applied along generated paths, where an edge always exists). -/
def edge_weight (es : List ((Nat × Nat) × ℚ)) (u v : Nat) : ℚ :=
  ((edge_weights es u v).min?).getD 0

/-- Total weight of a node path. -/
def path_weight (es : List ((Nat × Nat) × ℚ)) : List Nat → ℚ
  | u :: v :: rest => edge_weight es u v + path_weight es (v :: rest)
  | _ => 0

/-- All simple paths out of `u` avoiding `visited`, bounded by `fuel`. -/
def simple_paths_aux (es : List ((Nat × Nat) × ℚ)) :
    Nat → List Nat → Nat → List (List Nat)
  | 0, _, u => [[u]]
  | fuel + 1, visited, u =>
    [u] ::
      (neighbors es u).foldr
        (fun v acc =>
          if v ∈ visited then acc
          else ((simple_paths_aux es fuel (v :: visited) v).map
            (fun p => u :: p)) ++ acc)
        []

/-- All simple paths starting at `s`; the fuel `2 * es.length + 1` bounds the
number of distinct nodes, so no simple path is missed. -/
def simple_paths_from (es : List ((Nat × Nat) × ℚ)) (s : Nat) :
    List (List Nat) :=
  simple_paths_aux es (2 * es.length + 1) [s] s

/-- Shortest-path distance from `s` to `v`: minimum weight over simple paths
ending at `v`; `none` when `v` is unreachable. -/
def dist_to (es : List ((Nat × Nat) × ℚ)) (s v : Nat) : Option ℚ :=
  (((simple_paths_from es s).filter (fun p => p.getLast? == some v)).map
    (path_weight es)).min?

/-- Dijkstra with cutoff, per the `networkx` contract: a node appears in the
result exactly when its shortest-path distance is ≤ cutoff. -/
def cutoff_distances (es : List ((Nat × Nat) × ℚ)) (s : Nat) (cutoff : ℚ)
    (v : Nat) : Option ℚ :=
  match dist_to es s v with
  | none => none
  | some d => if d ≤ cutoff then some d else none

/-! The plain road network (road_network.py). -/

/-- Embedding of `RoadNetwork`: the dense node coordinate table, the
undirected weighted edge list, and the configured snap tolerance (already
clamped to ≥ 0 by `__init__`). -/
structure RoadNetwork where
  coords : List Point
  edges : List ((Nat × Nat) × ℚ)
  snap_tolerance_m : ℚ
deriving DecidableEq

def RoadNetwork.node_count (net : RoadNetwork) : Nat := net.coords.length

/-- Embedding of `RoadNetwork.snap_point`. -/
def RoadNetwork.snap_point (net : RoadNetwork) (hav : Point → Point → ℚ)
    (lat lon : ℚ) (max_snap_m : Option (WithTop ℚ)) : Option (Nat × ℚ) :=
  snap_core hav net.coords net.snap_tolerance_m lat lon max_snap_m

/-- Embedding of `RoadNetwork.shortest_paths_from`: empty result when the
source node is not in the graph (graph nodes are exactly the coordinate
indices), otherwise the cutoff-bounded Dijkstra map.  The bounded
recency-ordered cache in the source returns previously computed results
unchanged, so it does not affect the value. -/
def RoadNetwork.shortest_paths_from (net : RoadNetwork) (s : Nat)
    (cutoff : ℚ) (v : Nat) : Option ℚ :=
  if s < net.coords.length then cutoff_distances net.edges s cutoff v
  else none

/-! The graph builder (road_network.py `_build_graph_from_geojson`,
`_iter_lines`, `_add_line_to_graph`, `_get_or_create_node`). -/

/-- A raw GeoJSON coordinate: `none` models a malformed entry (fewer than
two ordinates, or non-numeric), which `_add_line_to_graph` skips.  A valid
entry is `(lon, lat)`, in GeoJSON order. -/
abbrev RawCoord := Option (ℚ × ℚ)

/-- GeoJSON geometries that `_iter_lines` understands; `other` stands for any
other geometry type (which yields no lines). -/
inductive Geometry where
  | lineString (coords : List RawCoord)
  | multiLineString (lines : List (List RawCoord))
  | polygon (rings : List (List RawCoord))
  | multiPolygon (polys : List (List (List RawCoord)))
  | other
deriving DecidableEq

/-- Python truthiness of `geom.get("coordinates")` as used by the guard
`if geom is None or not geom.get("coordinates"): continue`. -/
def Geometry.coords_empty : Geometry → Bool
  | .lineString cs => cs.isEmpty
  | .multiLineString ls => ls.isEmpty
  | .polygon rs => rs.isEmpty
  | .multiPolygon ps => ps.isEmpty
  | .other => false

/-- Embedding of `_iter_lines`. -/
def Geometry.iter_lines : Geometry → List (List RawCoord)
  | .lineString cs => [cs]
  | .multiLineString ls => ls
  | .polygon rs => rs
  | .multiPolygon ps => ps.flatten
  | .other => []

/-- A GeoJSON feature: optional geometry and the two roadway property tags
the builder reads (`properties.get("highway")`, `properties.get("area:highway")`). -/
structure Feature where
  geometry : Option Geometry
  highway : Option String
  area_highway : Option String
deriving DecidableEq

/-- Python truthiness of a `properties.get(...)` string value. -/
def truthy : Option String → Bool
  | none => false
  | some s => !s.isEmpty

/-- A feature contributes to the graph exactly when it survives both guards
of `_build_graph_from_geojson`: geometry present with truthy coordinates,
and at least one truthy roadway tag. -/
def qualifies (f : Feature) : Bool :=
  match f.geometry with
  | none => false
  | some g => !g.coords_empty && (truthy f.highway || truthy f.area_highway)

/-- Node-dedup key: `(round(lat, 6), round(lon, 6))` scaled to integers.
Python `round` is round-half-even where ours is round-half-up; the two only
differ on exact half-ulp ties, which no claim depends on. -/
def round_key (x : ℚ) : ℤ := round (x * 1000000)

/-- Mutable state threaded through the graph build. -/
structure BuildState where
  lookup : List ((ℤ × ℤ) × Nat)
  coords : List Point
  edges : List ((Nat × Nat) × ℚ)
deriving DecidableEq

/-- Embedding of `_get_or_create_node`: dedup by rounded coordinate. -/
def get_or_create_node (st : BuildState) (lat lon : ℚ) : Nat × BuildState :=
  let key := (round_key lat, round_key lon)
  match st.lookup.lookup key with
  | some id => (id, st)
  | none =>
    let id := st.coords.length
    (id, { lookup := (key, id) :: st.lookup,
           coords := st.coords ++ [(lat, lon)],
           edges := st.edges })

/-- Canonical unordered key for an undirected edge of `nx.Graph`. -/
def edge_key (u v : Nat) : Nat × Nat := if u ≤ v then (u, v) else (v, u)

/-- Replace the weight stored for an existing edge. -/
def set_edge (es : List ((Nat × Nat) × ℚ)) (k : Nat × Nat) (w : ℚ) :
    List ((Nat × Nat) × ℚ) :=
  es.map (fun e => if e.1 = k then (k, w) else e)

/-- Embedding of `_add_line_to_graph`: walk the coordinate sequence,
skipping malformed entries, dedup nodes, skip self-edges and edges shorter
than 0.5 m, and keep the minimum weight for a repeated pair. -/
def add_line_to_graph (hav : Point → Point → ℚ) (st : BuildState)
    (line : List RawCoord) : BuildState :=
  (line.foldl
    (fun (acc : BuildState × Option Nat) c =>
      match c with
      | none => acc
      | some (lon, lat) =>
        let st := acc.1
        let prev := acc.2
        let r := get_or_create_node st lat lon
        let node_id := r.1
        let st := r.2
        match prev with
        | none => (st, some node_id)
        | some pv =>
          if node_id = pv then (st, some node_id)
          else
            let pc := st.coords.getD pv (0, 0)
            let dist := hav pc (lat, lon)
            if dist < 1 / 2 then (st, some node_id)
            else
              match st.edges.lookup (edge_key pv node_id) with
              | none =>
                ({ st with edges := (edge_key pv node_id, dist) :: st.edges },
                  some node_id)
              | some w =>
                if dist < w then
                  ({ st with edges := set_edge st.edges (edge_key pv node_id) dist },
                    some node_id)
                else (st, some node_id))
    (st, none)).1

/-- Per-feature step of `_build_graph_from_geojson`: the two `continue`
guards, then every line of the geometry is folded into the graph. -/
def step_feature (hav : Point → Point → ℚ) (st : BuildState) (f : Feature) :
    BuildState :=
  match f.geometry with
  | none => st
  | some g =>
    if g.coords_empty then st
    else if truthy f.highway || truthy f.area_highway then
      g.iter_lines.foldl (add_line_to_graph hav) st
    else st

/-- Embedding of `RoadNetwork._build_graph_from_geojson` on an already
parsed feature list (a missing file raises before this point and is out of
scope here). -/
def build_graph_from_geojson (hav : Point → Point → ℚ)
    (features : List Feature) : BuildState :=
  features.foldl (step_feature hav) ⟨[], [], []⟩

/-- `RoadNetwork.from_geojson` without a cache: build the graph and wrap it;
`__init__` clamps the tolerance with `max(float(snap_tolerance_m), 0.0)`. -/
def RoadNetwork.from_features (hav : Point → Point → ℚ)
    (features : List Feature) (snap_tolerance_m : ℚ) : RoadNetwork :=
  let st := build_graph_from_geojson hav features
  ⟨st.coords, st.edges, max snap_tolerance_m 0⟩

/-! The persistence cache (road_network.py lines 54-69 and 189-214,
road_type_network.py lines 92-110 and 206-234).  The file-system outcomes
are modelled by booleans recording what each check the code performs would
observe. -/

/-- Outcomes of the individual cache checks for one `from_geojson` call. -/
structure CacheState where
  present : Bool
  mtime_ge : Bool
  readable : Bool
  schema_ok : Bool
  contents_ok : Bool
deriving DecidableEq

/-- Embedding of `_cache_is_valid` (identical in both classes): the cache
file exists and its modification time is ≥ the source file, with any
`OSError` yielding `False` (folded into the two booleans). -/
def cache_is_valid (c : CacheState) : Bool := c.present && c.mtime_ge

/-- What a `from_geojson` call does: serve the cache, rebuild from source
(recording whether the rebuilt graph is saved over the cache file), or
propagate an exception to the caller. -/
inductive LoadOutcome where
  | fromCache
  | rebuilt (saved : Bool)
  | error
deriving DecidableEq

/-- Embedding of `RoadNetwork.from_geojson` with `RoadNetwork._load_cache`:
when the mtime check passes, `_load_cache` is called with no exception
handler, so an unpickling failure or missing keys propagate; otherwise the
graph is rebuilt and saved when a cache path was given.  This `_load_cache`
checks no schema version (the plain cache stores none). -/
def RoadNetwork.from_geojson_outcome (cache_path : Bool) (c : CacheState) :
    LoadOutcome :=
  if cache_path && cache_is_valid c then
    if c.readable && c.contents_ok then .fromCache else .error
  else .rebuilt cache_path

/-- Embedding of `RoadTypeNetwork.from_geojson` with
`RoadTypeNetwork._load_cache`: the load is wrapped in `try/except`, and the
cache is served only when unpickling succeeds, the embedded
`schema_version` equals `_CACHE_SCHEMA_VERSION`, and both keys are present;
any failure falls through to rebuild-and-save. -/
def RoadTypeNetwork.from_geojson_outcome (cache_path : Bool)
    (c : CacheState) : LoadOutcome :=
  if cache_path && cache_is_valid c then
    if c.readable && c.schema_ok && c.contents_ok then .fromCache
    else .rebuilt true
  else .rebuilt cache_path

/-! The road-type network (road_type_network.py). -/

/-- Embedding of the module-level `ROAD_TYPE_WEIGHTS` table. -/
def road_type_weights : List (String × ℚ) :=
  [("motorway", 16 / 10), ("trunk", 15 / 10), ("primary", 14 / 10),
   ("secondary", 13 / 10), ("tertiary", 12 / 10), ("residential", 1),
   ("unclassified", 1), ("road", 1), ("service", 9 / 10),
   ("living_street", 9 / 10), ("track", 8 / 10), ("path", 8 / 10),
   ("cycleway", 8 / 10), ("footway", 7 / 10), ("pedestrian", 7 / 10),
   ("steps", 7 / 10), ("construction", 11 / 10)]

/-- Embedding of `ROAD_TYPE_WEIGHTS.get(t, 1.0)`. -/
def road_type_weight (t : String) : ℚ :=
  ((road_type_weights.lookup t).getD 1)

/-- Embedding of `_normalize_road_type` on string-or-missing inputs (the
list/str coercion branches only matter for non-string GeoJSON values):
strip, lower-case, and map the empty result to `None`. -/
def normalize_road_type : Option String → Option String
  | none => none
  | some s =>
    let t := s.trim.toLower
    if t.isEmpty then none else some t

/-- Embedding of `RoadTypeNetwork`: coordinate table, per-node road-type
tag sets (stored here in the sorted order `road_types_for_node` returns),
edges carrying weight and road-type label, and the snap tolerance. -/
structure RoadTypeNetwork where
  coords : List Point
  node_types : List (List String)
  edges : List ((Nat × Nat) × ℚ × Option String)
  snap_tolerance_m : ℚ
deriving DecidableEq

/-- Embedding of `RoadTypeNetwork.snap_point` (same body as
`RoadNetwork.snap_point`). -/
def RoadTypeNetwork.snap_point (net : RoadTypeNetwork)
    (hav : Point → Point → ℚ) (lat lon : ℚ)
    (max_snap_m : Option (WithTop ℚ)) : Option (Nat × ℚ) :=
  snap_core hav net.coords net.snap_tolerance_m lat lon max_snap_m

/-- Embedding of `road_types_for_node`. -/
def RoadTypeNetwork.road_types_for_node (net : RoadTypeNetwork) (n : Nat) :
    List String :=
  net.node_types.getD n []

/-- Edge list under the `edge_weight` cost function of
`road_type_distance_map`: `base * ROAD_TYPE_WEIGHTS.get(normalize(road_type) or "", 1.0)`. -/
def RoadTypeNetwork.effective_edges (net : RoadTypeNetwork) :
    List ((Nat × Nat) × ℚ) :=
  net.edges.map
    (fun e =>
      (e.1, e.2.1 * road_type_weight ((normalize_road_type e.2.2).getD (""))))

/-- Result record of `road_type_distance_map`. -/
structure RTDistanceMap where
  node_id : Nat
  snap_distance_m : ℚ
  start_types : List String
  distances : List (String × ℚ)
  points : List (String × Nat × Point)
deriving DecidableEq

/-- Replace the value stored for a key in the `distances` accumulator. -/
def set_assoc (l : List (String × ℚ)) (k : String) (v : ℚ) :
    List (String × ℚ) :=
  l.map (fun e => if e.1 = k then (k, v) else e)

/-- Per-node update of the `distances` / `points` accumulators inside
`road_type_distance_map`: for each road type of a reached node, keep the
strictly smaller total distance and its representative point. -/
def update_type_distances (net : RoadTypeNetwork) (offset_m : ℚ)
    (acc : List (String × ℚ) × List (String × Nat × Point)) (v : Nat)
    (d : ℚ) : List (String × ℚ) × List (String × Nat × Point) :=
  let total := d + offset_m
  (net.road_types_for_node v).foldl
    (fun acc t =>
      match acc.1.lookup t with
      | none =>
        (acc.1 ++ [(t, total)],
         acc.2 ++ [(t, v, net.coords.getD v (0, 0))])
      | some cur =>
        if total < cur then
          (set_assoc acc.1 t total,
           acc.2.map (fun p => if p.1 = t then (t, v, net.coords.getD v (0, 0)) else p))
        else acc)
    acc

/-- Embedding of `RoadTypeNetwork.road_type_distance_map`: tiered snap of
the centre (configured tolerance, secondary tolerance, then unlimited),
start types at the snapped node, cutoff Dijkstra under the type-weighted
cost, and the per-type minimum total distance with representative point. -/
def RoadTypeNetwork.road_type_distance_map (net : RoadTypeNetwork)
    (hav : Point → Point → ℚ) (center_lat center_lon : ℚ) (radius_m : ℚ)
    (secondary_snap_tolerance_m : ℚ) : Option RTDistanceMap :=
  let s1 := net.snap_point hav center_lat center_lon
    (some ((net.snap_tolerance_m : WithTop ℚ)))
  let s2 := match s1 with
    | some x => some x
    | none => net.snap_point hav center_lat center_lon
        (some ((secondary_snap_tolerance_m : WithTop ℚ)))
  let s3 := match s2 with
    | some x => some x
    | none => net.snap_point hav center_lat center_lon (some ⊤)
  match s3 with
  | none => none
  | some (center_node, center_offset) =>
    let start_types := net.road_types_for_node center_node
    let acc := (List.range net.coords.length).foldl
      (fun acc v =>
        match cutoff_distances net.effective_edges center_node radius_m v with
        | none => acc
        | some d =>
          if (net.road_types_for_node v).isEmpty then acc
          else update_type_distances net center_offset acc v d)
      ([], [])
    some ⟨center_node, center_offset, start_types, acc.1, acc.2⟩

/-! The `/road-types/` endpoint (road_types.py `get_road_types`): the
`reachable` list keeps the road types of the distance map that are not
among the start types, converts metres to kilometres, and sorts by
distance.  (Rounding to 4 decimals and the decayed-weight fields do not
affect which road types appear and are omitted.) -/

/-- Road types reported as reachable by `get_road_types`, with their
kilometre distances, sorted by distance. -/
def reachable_road_types (res : RTDistanceMap) : List (String × ℚ) :=
  ((res.distances.filter (fun p => !res.start_types.contains p.1)).map
    (fun p => (p.1, p.2 / 1000))).mergeSort
    (fun a b => decide (a.2 ≤ b.2))

/-! The aggregation layer (site_analysis_service.py). -/

/-- Embedding of `_weight` over the reals (the `try/except` guards only
catch float overflow, which exact arithmetic does not produce). -/
noncomputable def weight (distance_km radius_km decay_scale_km : ℝ) : ℝ :=
  if radius_km ≤ 0 then 0
  else if decay_scale_km ≤ 0 then max 0 (1 - distance_km / radius_km)
  else max 0 (1 - distance_km / radius_km) *
    Real.exp (-(distance_km / decay_scale_km))

/-- The `sort_by` query parameter. -/
inductive SortMode where
  | auto
  | haversine
  | network
deriving DecidableEq

/-- Per-POI distance selection inside `ring_summary` (lines 499-504):
`net_km if net_km is not None else hav_km` for both `network` and `auto`. -/
def chosen_km (mode : SortMode) (hav_km : ℚ) (net_km : Option ℚ) : ℚ :=
  match mode with
  | .network => net_km.getD hav_km
  | .haversine => hav_km
  | .auto => net_km.getD hav_km

/-- Per-POI `net_km_out` inside `nearby` (lines 392-396): with
`include_network` the network distance falls back to haversine, otherwise
`None`. -/
def nearby_net_km_out (include_network : Bool) (hav_km : ℚ)
    (net_km : Option ℚ) : Option ℚ :=
  if include_network then some (net_km.getD hav_km) else none

/-- Per-POI distance selection inside `nearby` (lines 398-404), applied to
`net_km_out`. -/
def nearby_chosen_km (mode : SortMode) (include_network : Bool)
    (hav_km : ℚ) (net_km : Option ℚ) : ℚ :=
  let out := nearby_net_km_out include_network hav_km net_km
  match mode with
  | .network => out.getD hav_km
  | .haversine => hav_km
  | .auto => out.getD hav_km

/-- One POI surviving the max-radius haversine filter of `ring_summary`:
its haversine distance and its optional network distance from the map
computed once at the maximum radius. -/
structure PoiEntry where
  hav_km : ℚ
  net_km : Option ℚ
deriving DecidableEq

/-- Per-ring, per-category POI count of `ring_summary`: the POIs whose
chosen distance is within the ring radius. -/
def ring_count (mode : SortMode) (pois : List PoiEntry) (r : ℚ) : Nat :=
  (pois.filter (fun p => chosen_km mode p.hav_km p.net_km ≤ r)).length

/-- The counts `ring_summary` reports for one category across the radii of
one call: the same `pois` list (and the same network-distance map) serves
every ring. -/
def ring_counts (mode : SortMode) (pois : List PoiEntry)
    (radii : List ℚ) : List (ℚ × Nat) :=
  radii.map (fun r => (r, ring_count mode pois r))

/-! Tiered batch snapping in `_network_distance_map` (lines 227-241). -/

/-- Embedding of `snap_points`: one snap per entry, `none` for entries with
missing or non-finite coordinates (the `(None, inf)` outcome). -/
def snap_points (hav : Point → Point → ℚ) (net : RoadNetwork)
    (pts : List (Option Point)) (max_snap_m : Option (WithTop ℚ)) :
    List (Option (Nat × ℚ)) :=
  pts.map
    (fun op =>
      match op with
      | none => none
      | some p => snap_core hav net.coords net.snap_tolerance_m p.1 p.2 max_snap_m)

/-- One fallback pass: entries where every earlier tier failed take the new
tier's result; successful entries are kept. -/
def fill_failed (cur next : List (Option (Nat × ℚ))) :
    List (Option (Nat × ℚ)) :=
  List.zipWith
    (fun c n =>
      match c with
      | some x => some x
      | none => n)
    cur next

/-- One tier of `_network_distance_map`: the fallback pass runs only when
some entry is still unsnapped (the `if any(...)` guard). -/
def tier_stage (cur next : List (Option (Nat × ℚ))) :
    List (Option (Nat × ℚ)) :=
  if cur.any Option.isNone then fill_failed cur next else cur

/-- Batch snaps after the primary tolerance. -/
def snap_tier1 (hav : Point → Point → ℚ) (net : RoadNetwork)
    (primary : ℚ) (pts : List (Option Point)) : List (Option (Nat × ℚ)) :=
  snap_points hav net pts (some ((primary : WithTop ℚ)))

/-- Batch snaps after the secondary-tolerance fallback pass. -/
def snap_tier2 (hav : Point → Point → ℚ) (net : RoadNetwork)
    (primary secondary : ℚ) (pts : List (Option Point)) :
    List (Option (Nat × ℚ)) :=
  tier_stage (snap_tier1 hav net primary pts)
    (snap_points hav net pts (some ((secondary : WithTop ℚ))))

/-- Batch snaps after the final unconditional (`float("inf")`) pass. -/
def snap_tier3 (hav : Point → Point → ℚ) (net : RoadNetwork)
    (primary secondary : ℚ) (pts : List (Option Point)) :
    List (Option (Nat × ℚ)) :=
  tier_stage (snap_tier2 hav net primary secondary pts)
    (snap_points hav net pts (some ⊤))

/-- Tiered snap of the centre point (lines 197-209, identical in
`_resolve_center_node` and `_resolve_poi_node`). -/
def tiered_center_snap (hav : Point → Point → ℚ) (net : RoadNetwork)
    (primary secondary : ℚ) (lat lon : ℚ) : Option (Nat × ℚ) :=
  match net.snap_point hav lat lon (some ((primary : WithTop ℚ))) with
  | some x => some x
  | none =>
    match net.snap_point hav lat lon (some ((secondary : WithTop ℚ))) with
    | some x => some x
    | none => net.snap_point hav lat lon (some ⊤)

/-- Embedding of `SiteAnalysisService._network_distance_map`, per POI
position: `none` when the centre never snaps, the POI never snaps, the
POI's node is outside the cutoff Dijkstra map, or the total with both
offsets exceeds the radius; otherwise the total in kilometres. -/
def network_distance_map (hav : Point → Point → ℚ) (net : RoadNetwork)
    (primary secondary : ℚ) (center : Point) (pois : List (Option Point))
    (radius_m : ℚ) : List (Option ℚ) :=
  match tiered_center_snap hav net primary secondary center.1 center.2 with
  | none => pois.map (fun _ => none)
  | some (center_node, center_offset) =>
    (snap_tier3 hav net primary secondary pois).map
      (fun s =>
        match s with
        | none => none
        | some (n, off) =>
          match net.shortest_paths_from center_node radius_m n with
          | none => none
          | some d =>
            if d + center_offset + off ≤ radius_m then
              some ((d + center_offset + off) / 1000)
            else none)

/-! Theorems about the decay weight function. -/

theorem weight_formula (d r k : ℝ) (hr : 0 < r) (hk : 0 < k) :
    weight d r k = max 0 (1 - d / r) * Real.exp (-(d / k)) := by
  unfold weight
  rw [if_neg (not_le.mpr hr), if_neg (not_le.mpr hk)]

theorem weight_at_zero (r k : ℝ) (hr : 0 < r) (hk : 0 < k) :
    weight 0 r k = 1 := by
  rw [weight_formula 0 r k hr hk]
  norm_num

theorem weight_beyond_radius (d r k : ℝ) (hr : 0 < r) (hk : 0 < k)
    (hd : r ≤ d) : weight d r k = 0 := by
  rw [weight_formula d r k hr hk]
  have h1 : 1 ≤ d / r := (one_le_div hr).mpr hd
  have h2 : 1 - d / r ≤ 0 := by linarith
  rw [max_eq_left h2, zero_mul]

theorem weight_strict_anti_below_radius (d1 d2 r k : ℝ) (hr : 0 < r)
    (hk : 0 < k) (h12 : d1 < d2) (h1r : d1 < r) :
    weight d2 r k < weight d1 r k := by
  rw [weight_formula d1 r k hr hk, weight_formula d2 r k hr hk]
  have hb1 : 0 < 1 - d1 / r := by
    have : d1 / r < 1 := (div_lt_one hr).mpr h1r
    linarith
  rw [max_eq_right hb1.le]
  rcases le_or_lt r d2 with h2 | h2
  · have hle : 1 ≤ d2 / r := (one_le_div hr).mpr h2
    have hb2 : 1 - d2 / r ≤ 0 := by linarith
    rw [max_eq_left hb2, zero_mul]
    exact mul_pos hb1 (Real.exp_pos _)
  · have hb2 : 0 < 1 - d2 / r := by
      have : d2 / r < 1 := (div_lt_one hr).mpr h2
      linarith
    rw [max_eq_right hb2.le]
    have hdiv : d1 / r < d2 / r := by
      rw [div_eq_mul_inv d1 r, div_eq_mul_inv d2 r]
      exact mul_lt_mul_of_pos_right h12 (inv_pos.mpr hr)
    have hdivk : d1 / k ≤ d2 / k := by
      rw [div_eq_mul_inv d1 k, div_eq_mul_inv d2 k]
      exact mul_le_mul_of_nonneg_right h12.le (inv_pos.mpr hk).le
    exact mul_lt_mul (by linarith) (Real.exp_le_exp.mpr (by linarith))
      (Real.exp_pos _) hb1.le

/-- Claim C1 (corrected): for every radius r > 0 and decay scale k > 0 the
decay weight satisfies weight(d, r, k) = max(0, 1 - d/r) * exp(-d/k),
weight(0, r, k) = 1, and weight(d, r, k) = 0 for d ≥ r; the weight is
strictly decreasing in the distance only as long as the smaller distance
lies below the radius — beyond the radius the function is constantly 0, so
strict decrease over all distances fails. -/
theorem weight_spec (d d0 d1 d2 r k : ℝ) (hr : 0 < r) (hk : 0 < k)
    (hd : r ≤ d0) (h12 : d1 < d2) (h1r : d1 < r) :
    weight d r k = max 0 (1 - d / r) * Real.exp (-(d / k)) ∧
    weight 0 r k = 1 ∧
    weight d0 r k = 0 ∧
    weight d2 r k < weight d1 r k :=
  ⟨weight_formula d r k hr hk, weight_at_zero r k hr hk,
   weight_beyond_radius d0 r k hr hk hd,
   weight_strict_anti_below_radius d1 d2 r k hr hk h12 h1r⟩

theorem weight_spec_witness :
    weight (1 / 2) 1 1 =
      max 0 (1 - 1 / 2 / 1) * Real.exp (-(1 / 2 / 1)) ∧
    weight 0 1 1 = 1 ∧
    weight 2 1 1 = 0 ∧
    weight (1 / 2) 1 1 < weight 0 1 1 :=
  weight_spec (1 / 2) 2 0 (1 / 2) 1 1 one_pos one_pos one_le_two
    one_half_pos one_pos

/-- Claim C1 counterexample: with radius 1 and decay scale 1 (both
positive) the weight is 0 both at distance 1 and at distance 2, so the
claimed strict decrease of the weight in the distance fails at the pair of
distances 1 < 2 (the weight takes equal values there). -/
theorem weight_not_strict_beyond_radius :
    weight 1 1 1 = 0 ∧ weight 2 1 1 = 0 ∧ weight 2 1 1 = weight 1 1 1 := by
  have h1 : weight 1 1 1 = 0 := weight_beyond_radius 1 1 1 one_pos one_pos le_rfl
  have h2 : weight 2 1 1 = 0 := weight_beyond_radius 2 1 1 one_pos one_pos one_le_two
  exact ⟨h1, h2, by rw [h1, h2]⟩

/-! Theorems about the persistence cache. -/

/-- Claim C2 (corrected): the claimed behaviour holds for
`RoadTypeNetwork.from_geojson` — no cache state surfaces an error, the
cache is served exactly when it exists, is at least as new as the source,
unpickles, carries the current schema version and both required keys, and
every other state rebuilds from source and overwrites the cache.  For
`RoadNetwork.from_geojson`, however, only staleness is a silent cache
miss: its `_load_cache` runs without an exception handler and checks no
schema version, so a cache that passes the mtime check but is corrupt,
unreadable or missing keys raises to the caller. -/
theorem from_geojson_cache_spec (cp p m r s k : Bool) (c : CacheState) :
    (RoadTypeNetwork.from_geojson_outcome cp c =
      if cp && cache_is_valid c && c.readable && c.schema_ok &&
          c.contents_ok
        then LoadOutcome.fromCache else LoadOutcome.rebuilt cp) ∧
    (RoadNetwork.from_geojson_outcome true ⟨p, false, r, s, k⟩ =
      LoadOutcome.rebuilt true) ∧
    (RoadNetwork.from_geojson_outcome true ⟨false, m, r, s, k⟩ =
      LoadOutcome.rebuilt true) ∧
    (RoadNetwork.from_geojson_outcome true ⟨true, true, false, s, k⟩ =
      LoadOutcome.error) ∧
    (RoadNetwork.from_geojson_outcome true ⟨true, true, r, s, false⟩ =
      LoadOutcome.error) := by
  rcases c with ⟨cp2, cm, cr, cs, ck⟩
  cases cp <;> cases p <;> cases m <;> cases r <;> cases s <;> cases k <;>
    cases cp2 <;> cases cm <;> cases cr <;> cases cs <;> cases ck <;> decide

/-- Claim C2 counterexample: a cache file that exists and passes the
modification-time check but does not unpickle makes
`RoadNetwork.from_geojson` raise to the caller instead of rebuilding. -/
theorem road_network_corrupt_cache_errors :
    RoadNetwork.from_geojson_outcome true ⟨true, true, false, true, true⟩ =
      LoadOutcome.error := by
  decide

/-! Theorems about point snapping. -/

/-- Claim C4 (corrected): a successful `snap_point` returns a finite
offset that is ≤ the tolerance used for the call (the explicit
`max_snap_m` or the configured tolerance), provided that tolerance is
positive; a nonpositive tolerance disables the threshold test entirely
(`if threshold <= 0.0 or ...`), and the nearest node is then returned even
when its offset exceeds the tolerance. -/
theorem snap_offset_within_tolerance (hav : Point → Point → ℚ)
    (net : RoadNetwork) (lat lon : ℚ) (max_snap_m : Option (WithTop ℚ))
    (i : Nat) (off : ℚ)
    (hpos : ((0 : ℚ) : WithTop ℚ) <
      max_snap_m.getD ((net.snap_tolerance_m : WithTop ℚ)))
    (h : net.snap_point hav lat lon max_snap_m = some (i, off)) :
    ((off : WithTop ℚ)) ≠ ⊤ ∧
    ((off : WithTop ℚ)) ≤
      max_snap_m.getD ((net.snap_tolerance_m : WithTop ℚ)) := by
  refine ⟨WithTop.coe_ne_top, ?_⟩
  unfold RoadNetwork.snap_point snap_core at h
  split at h
  · simp at h
  · split at h
    · simp at h
    · rename_i idx heq
      dsimp only at h
      split at h
      · rename_i hcond
        simp only [Option.some.injEq, Prod.mk.injEq] at h
        obtain ⟨h1, h2⟩ := h
        subst h2
        rcases hcond with hle | hle
        · exact absurd hpos (not_lt.mpr hle)
        · exact hle
      · simp at h

theorem snap_offset_within_tolerance_witness :
    (((100 : ℚ) : WithTop ℚ)) ≠ ⊤ ∧
    (((100 : ℚ) : WithTop ℚ)) ≤ (((120 : ℚ) : WithTop ℚ)) :=
  snap_offset_within_tolerance (fun _ _ => 100) ⟨[(0, 0)], [], 120⟩ 3 4
    (some (((120 : ℚ) : WithTop ℚ))) 0 100 (by decide) (by rfl)

/-- Claim C4 counterexample: with an explicit tolerance of 0 the threshold
test is skipped, and `snap_point` returns the nearest node with offset
100 m, which exceeds the tolerance 0 used for the call. -/
theorem snap_offset_can_exceed_zero_tolerance :
    (RoadNetwork.snap_point ⟨[(0, 0)], [], 120⟩ (fun _ _ => 100) 3 4
      (some (((0 : ℚ) : WithTop ℚ))) = some (0, 100)) ∧
    (0 : ℚ) < 100 := by
  exact ⟨by rfl, by decide⟩

/-- Claim C5 (corrected): if a point snaps at tolerance t1 and t1 < t2,
then it snaps at t2 to the same node and offset — provided t1 is positive.
When t1 ≤ 0 the first call succeeds unconditionally (threshold test
disabled), while a larger positive t2 can still reject the nearest node. -/
theorem snap_monotone_in_tolerance (hav : Point → Point → ℚ)
    (net : RoadNetwork) (lat lon : ℚ) (t1 t2 : WithTop ℚ) (r : Nat × ℚ)
    (h0 : ((0 : ℚ) : WithTop ℚ) < t1) (h12 : t1 < t2)
    (h : net.snap_point hav lat lon (some t1) = some r) :
    net.snap_point hav lat lon (some t2) = some r := by
  unfold RoadNetwork.snap_point snap_core at h ⊢
  split at h
  · simp at h
  · rename_i hlen
    split at h
    · simp at h
    · rename_i idx heq
      dsimp only at h ⊢
      split at h
      · rename_i hcond
        have hd : ((hav (lat, lon) (net.coords.getD idx (0, 0)) : WithTop ℚ)) ≤ t1 := by
          rcases hcond with hle | hle
          · exact absurd h0 (not_lt.mpr hle)
          · exact hle
        rw [if_neg hlen]
        have hg2 : (some t2).getD ((net.snap_tolerance_m : WithTop ℚ)) = t2 :=
          rfl
        rw [hg2, if_pos (Or.inr (le_trans hd h12.le))]
        exact h
      · simp at h

theorem snap_monotone_in_tolerance_witness :
    RoadNetwork.snap_point ⟨[(0, 0)], [], 120⟩ (fun _ _ => 100) 3 4
      (some (((120 : ℚ) : WithTop ℚ))) = some (0, 100) :=
  snap_monotone_in_tolerance (fun _ _ => 100) ⟨[(0, 0)], [], 120⟩ 3 4
    (((100 : ℚ) : WithTop ℚ)) (((120 : ℚ) : WithTop ℚ)) (0, 100)
    (by decide) (by decide) (by rfl)

/-- Claim C5 counterexample: with tolerances t1 = 0 < t2 = 50, the snap at
t1 succeeds unconditionally (nonpositive threshold disables the test) at
offset 100 m, yet the snap at the larger tolerance t2 fails because
100 > 50; so success at a smaller tolerance does not imply success at a
larger one. -/
theorem snap_not_monotone_from_zero_tolerance :
    (RoadNetwork.snap_point ⟨[(0, 0)], [], 120⟩ (fun _ _ => 100) 3 4
      (some (((0 : ℚ) : WithTop ℚ))) = some (0, 100)) ∧
    (RoadNetwork.snap_point ⟨[(0, 0)], [], 120⟩ (fun _ _ => 100) 3 4
      (some (((50 : ℚ) : WithTop ℚ))) = none) ∧
    (((0 : ℚ) : WithTop ℚ)) < (((50 : ℚ) : WithTop ℚ)) := by
  refine ⟨by rfl, by rfl, by decide⟩

/-! Theorems about cutoff-bounded shortest paths. -/

theorem edge_weight_nonneg (es : List ((Nat × Nat) × ℚ))
    (hw : ∀ e ∈ es, 0 ≤ e.2) (u v : Nat) : 0 ≤ edge_weight es u v := by
  unfold edge_weight
  cases hmin : (edge_weights es u v).min? with
  | none => simp
  | some m =>
    simp only [Option.getD_some]
    have hm : m ∈ edge_weights es u v :=
      List.min?_mem (fun a b => min_choice a b) hmin
    unfold edge_weights at hm
    rw [List.mem_filterMap] at hm
    obtain ⟨e, he, hfe⟩ := hm
    split at hfe
    · cases Option.some.inj hfe
      exact hw e he
    · cases hfe

theorem path_weight_nonneg (es : List ((Nat × Nat) × ℚ))
    (hw : ∀ e ∈ es, 0 ≤ e.2) : ∀ p : List Nat, 0 ≤ path_weight es p := by
  intro p
  induction p with
  | nil => simp [path_weight]
  | cons u rest ih =>
    cases rest with
    | nil => simp [path_weight]
    | cons v rest2 =>
      have : path_weight es (u :: v :: rest2) =
          edge_weight es u v + path_weight es (v :: rest2) := rfl
      rw [this]
      exact add_nonneg (edge_weight_nonneg es hw u v) ih

theorem singleton_mem_simple_paths (es : List ((Nat × Nat) × ℚ)) (s : Nat) :
    [s] ∈ simple_paths_from es s := by
  unfold simple_paths_from
  exact List.mem_cons_self _ _

theorem foldl_min_eq_zero (l : List ℚ) (acc : ℚ) (hacc : 0 ≤ acc)
    (hall : ∀ x ∈ l, 0 ≤ x) (hmem : acc = 0 ∨ (0 : ℚ) ∈ l) :
    l.foldl min acc = 0 := by
  induction l generalizing acc with
  | nil =>
    rcases hmem with h | h
    · simpa using h
    · simp at h
  | cons x xs ih =>
    simp only [List.foldl_cons]
    have hx : 0 ≤ x := hall x (List.mem_cons_self _ _)
    apply ih (min acc x) (le_min hacc hx)
      (fun y hy => hall y (List.mem_cons_of_mem _ hy))
    rcases hmem with h | h
    · subst h
      exact Or.inl (min_eq_left hx)
    · rcases List.mem_cons.mp h with h | h
      · subst h
        exact Or.inl (min_eq_right hacc)
      · exact Or.inr h

theorem min?_eq_zero (l : List ℚ) (h0 : (0 : ℚ) ∈ l)
    (hall : ∀ x ∈ l, 0 ≤ x) : l.min? = some 0 := by
  cases l with
  | nil => simp at h0
  | cons x xs =>
    have : (x :: xs).min? = some (xs.foldl min x) := rfl
    rw [this]
    congr 1
    apply foldl_min_eq_zero xs x (hall x (List.mem_cons_self _ _))
      (fun y hy => hall y (List.mem_cons_of_mem _ hy))
    rcases List.mem_cons.mp h0 with h | h
    · exact Or.inl h.symm
    · exact Or.inr h

theorem dist_to_self (es : List ((Nat × Nat) × ℚ))
    (hw : ∀ e ∈ es, 0 ≤ e.2) (s : Nat) : dist_to es s s = some 0 := by
  unfold dist_to
  apply min?_eq_zero
  · rw [List.mem_map]
    refine ⟨[s], ?_, rfl⟩
    rw [List.mem_filter]
    refine ⟨singleton_mem_simple_paths es s, ?_⟩
    simp
  · intro x hx
    rw [List.mem_map] at hx
    obtain ⟨p, _, hp⟩ := hx
    rw [← hp]
    exact path_weight_nonneg es hw p

/-- Claim C6 (confirmed): for a source node s in the graph and a
nonnegative cutoff c, every node `shortest_paths_from(s, c)` reports has
distance ≤ c, the source itself is reported with distance 0, and a node
that is unreachable or whose shortest distance exceeds the cutoff is
absent from the map rather than mapped to 0. -/
theorem shortest_paths_from_spec (net : RoadNetwork) (s v : Nat) (c : ℚ)
    (hw : ∀ e ∈ net.edges, 0 ≤ e.2) (hs : s < net.coords.length)
    (hc : 0 ≤ c) :
    (∀ d, net.shortest_paths_from s c v = some d → d ≤ c) ∧
    net.shortest_paths_from s c s = some 0 ∧
    (dist_to net.edges s v = none → net.shortest_paths_from s c v = none) ∧
    (∀ d, dist_to net.edges s v = some d → c < d →
      net.shortest_paths_from s c v = none) := by
  refine ⟨?_, ?_, ?_, ?_⟩
  · intro d h
    unfold RoadNetwork.shortest_paths_from at h
    rw [if_pos hs] at h
    unfold cutoff_distances at h
    split at h
    · cases h
    · split at h
      · cases Option.some.inj h
        assumption
      · cases h
  · unfold RoadNetwork.shortest_paths_from
    rw [if_pos hs]
    unfold cutoff_distances
    rw [dist_to_self net.edges hw s]
    dsimp only
    rw [if_pos hc]
  · intro h
    unfold RoadNetwork.shortest_paths_from
    rw [if_pos hs]
    unfold cutoff_distances
    rw [h]
  · intro d h hlt
    unfold RoadNetwork.shortest_paths_from
    rw [if_pos hs]
    unfold cutoff_distances
    rw [h]
    dsimp only
    rw [if_neg (not_le.mpr hlt)]

theorem shortest_paths_from_spec_witness :
    (∀ d, RoadNetwork.shortest_paths_from
        ⟨[(0, 0), (0, 1), (0, 2)], [((0, 1), 3), ((1, 2), 4)], 120⟩ 0 5 2 =
        some d → d ≤ 5) ∧
    RoadNetwork.shortest_paths_from
      ⟨[(0, 0), (0, 1), (0, 2)], [((0, 1), 3), ((1, 2), 4)], 120⟩ 0 5 0 =
      some 0 ∧
    (dist_to [((0, 1), 3), ((1, 2), 4)] 0 2 = none →
      RoadNetwork.shortest_paths_from
        ⟨[(0, 0), (0, 1), (0, 2)], [((0, 1), 3), ((1, 2), 4)], 120⟩ 0 5 2 =
        none) ∧
    (∀ d, dist_to [((0, 1), 3), ((1, 2), 4)] 0 2 = some d → 5 < d →
      RoadNetwork.shortest_paths_from
        ⟨[(0, 0), (0, 1), (0, 2)], [((0, 1), 3), ((1, 2), 4)], 120⟩ 0 5 2 =
        none) :=
  shortest_paths_from_spec
    ⟨[(0, 0), (0, 1), (0, 2)], [((0, 1), 3), ((1, 2), 4)], 120⟩ 0 2 5
    (by decide) (by decide) (by decide)

/-! Theorems about road-type accessibility. -/

/-- Claim C3 (confirmed): whenever a road-type accessibility query snaps
successfully, every road type present at the snapped start node is
excluded from the reachable list the endpoint reports, even though the
distance map itself may record a (farther) node carrying that type. -/
theorem reachable_excludes_start_types (hav : Point → Point → ℚ)
    (net : RoadTypeNetwork) (center_lat center_lon radius_m sec : ℚ)
    (res : RTDistanceMap) (t : String)
    (hres : net.road_type_distance_map hav center_lat center_lon radius_m
      sec = some res)
    (ht : t ∈ res.start_types) :
    t ∉ (reachable_road_types res).map Prod.fst := by
  intro hmem
  rw [List.mem_map] at hmem
  obtain ⟨p, hp, hpt⟩ := hmem
  unfold reachable_road_types at hp
  rw [List.mem_mergeSort, List.mem_map] at hp
  obtain ⟨q, hq, hqp⟩ := hp
  rw [List.mem_filter] at hq
  have hc := hq.2
  rw [Bool.not_eq_eq_eq_not, Bool.not_true] at hc
  have hqt : q.1 = t := by
    have : (q.1, q.2 / 1000).1 = p.1 := by rw [hqp]
    simpa [hpt] using this
  rw [hqt] at hc
  have : res.start_types.contains t = true := List.elem_eq_true_of_mem ht
  rw [this] at hc
  cases hc

theorem reachable_excludes_start_types_witness :
    "residential" ∉
      (reachable_road_types
        ⟨0, 0, ["residential"], [("residential", 0 + 0)],
          [("residential", 0, (0, 0))]⟩).map Prod.fst :=
  reachable_excludes_start_types (fun _ _ => 0)
    ⟨[(0, 0)], [["residential"]], [], 120⟩ 0 0 1000 300
    ⟨0, 0, ["residential"], [("residential", 0 + 0)],
      [("residential", 0, (0, 0))]⟩ ("residential") (by rfl) (by decide)

/-! Theorems about empty road data. -/

theorem step_feature_skip (hav : Point → Point → ℚ) (st : BuildState)
    (f : Feature) (h : qualifies f = false) : step_feature hav st f = st := by
  unfold step_feature
  unfold qualifies at h
  split
  · rfl
  · rename_i g heq
    rw [heq] at h
    dsimp only at h
    rcases Bool.eq_false_or_eq_true g.coords_empty with hce | hce
    · rw [hce, if_pos rfl]
    · rw [hce] at h ⊢
      simp only [Bool.not_false, Bool.true_and] at h
      rw [if_neg Bool.false_ne_true, if_neg (by simp [h])]

theorem foldl_step_feature_skip (hav : Point → Point → ℚ)
    (features : List Feature) (st : BuildState)
    (hq : ∀ f ∈ features, qualifies f = false) :
    features.foldl (step_feature hav) st = st := by
  induction features generalizing st with
  | nil => rfl
  | cons f fs ih =>
    rw [List.foldl_cons,
      step_feature_skip hav st f (hq f (List.mem_cons_self _ _))]
    exact ih st (fun g hg => hq g (List.mem_cons_of_mem _ hg))

/-- Claim C7 (confirmed): when the source GeoJSON has no qualifying
roadway feature, the build succeeds with an empty graph (node_count 0),
every snap_point call on that graph returns unsnapped, the per-POI network
distance map of the aggregation layer is empty (no POI receives a network
distance), and the distance selection then picks the haversine distance
for every POI in every mode. -/
theorem empty_road_data_degrades (features : List Feature)
    (hav hav2 : Point → Point → ℚ) (tol lat lon : ℚ)
    (ms : Option (WithTop ℚ)) (primary secondary : ℚ) (center : Point)
    (pois : List (Option Point)) (radius_m : ℚ) (mode : SortMode)
    (hav_km : ℚ)
    (hq : ∀ f ∈ features, qualifies f = false) :
    (RoadNetwork.from_features hav features tol).node_count = 0 ∧
    (RoadNetwork.from_features hav features tol).snap_point hav2 lat lon
      ms = none ∧
    network_distance_map hav2 (RoadNetwork.from_features hav features tol)
      primary secondary center pois radius_m =
      pois.map (fun _ => none) ∧
    chosen_km mode hav_km none = hav_km := by
  have hb : build_graph_from_geojson hav features = ⟨[], [], []⟩ :=
    foldl_step_feature_skip hav features ⟨[], [], []⟩ hq
  have hnet : RoadNetwork.from_features hav features tol =
      ⟨[], [], max tol 0⟩ := by
    unfold RoadNetwork.from_features
    rw [hb]
  refine ⟨?_, ?_, ?_, ?_⟩
  · rw [hnet]
    rfl
  · rw [hnet]
    rfl
  · rw [hnet]
    rfl
  · cases mode <;> rfl

theorem empty_road_data_degrades_witness :
    (RoadNetwork.from_features sq_dist
      [⟨some (Geometry.lineString [some (1, 2)]), none, none⟩]
      120).node_count = 0 ∧
    (RoadNetwork.from_features sq_dist
      [⟨some (Geometry.lineString [some (1, 2)]), none, none⟩]
      120).snap_point sq_dist 3 4 none = none ∧
    network_distance_map sq_dist
      (RoadNetwork.from_features sq_dist
        [⟨some (Geometry.lineString [some (1, 2)]), none, none⟩] 120)
      120 300 (0, 0) [some (5, 5), none] 1000 =
      [some (5, 5), none].map (fun _ => none) ∧
    chosen_km SortMode.auto 7 none = 7 :=
  empty_road_data_degrades
    [⟨some (Geometry.lineString [some (1, 2)]), none, none⟩]
    sq_dist sq_dist 120 3 4 none 120 300 (0, 0) [some (5, 5), none] 1000
    SortMode.auto 7 (by decide)

/-! Theorems about ring summaries. -/

/-- Claim C8 (confirmed): within one ring_summary call the per-category
chosen distances are computed once (from the network-distance map built at
the maximum radius), so the count reported for a category at a smaller
radius never exceeds the count at a larger radius of the same call. -/
theorem ring_counts_monotone (mode : SortMode) (pois : List PoiEntry)
    (radii : List ℚ) (r1 r2 : ℚ) (n1 n2 : Nat)
    (h1 : (r1, n1) ∈ ring_counts mode pois radii)
    (h2 : (r2, n2) ∈ ring_counts mode pois radii)
    (h12 : r1 ≤ r2) : n1 ≤ n2 := by
  unfold ring_counts at h1 h2
  rw [List.mem_map] at h1 h2
  obtain ⟨a1, _, he1⟩ := h1
  obtain ⟨a2, _, he2⟩ := h2
  rw [Prod.mk.injEq] at he1 he2
  obtain ⟨rfl, rfl⟩ := he1
  obtain ⟨rfl, rfl⟩ := he2
  unfold ring_count
  rw [← List.countP_eq_length_filter, ← List.countP_eq_length_filter]
  apply List.countP_mono_left
  intro p _ hp
  rw [decide_eq_true_eq] at hp ⊢
  exact le_trans hp h12

theorem ring_counts_monotone_witness : (1 : Nat) ≤ 2 :=
  ring_counts_monotone SortMode.auto [⟨1, none⟩, ⟨3, some 2⟩] [1, 2] 1 2
    1 2 (by decide) (by decide) (by decide)

/-! Theorems about tiered batch snapping. -/

theorem fill_failed_preserves (a b : List (Option (Nat × ℚ))) (i : Nat)
    (x : Nat × ℚ) (hlen : b.length = a.length)
    (h : a[i]? = some (some x)) : (fill_failed a b)[i]? = some (some x) := by
  unfold fill_failed
  have hi : i < a.length := by
    by_contra hge
    rw [List.getElem?_eq_none (le_of_not_lt hge)] at h
    cases h
  have hib : i < b.length := by
    rw [hlen]
    exact hi
  rw [List.getElem?_zipWith, h, List.getElem?_eq_getElem hib]

theorem fill_failed_source (a b : List (Option (Nat × ℚ))) (j : Nat)
    (y : Nat × ℚ) (h : (fill_failed a b)[j]? = some (some y)) :
    a[j]? = some (some y) ∨ a[j]? = some none := by
  unfold fill_failed at h
  rw [List.getElem?_zipWith] at h
  cases ha : a[j]? with
  | none =>
    rw [ha] at h
    cases h
  | some c =>
    rw [ha] at h
    cases hb : b[j]? with
    | none =>
      rw [hb] at h
      cases h
    | some d =>
      rw [hb] at h
      cases c with
      | none => exact Or.inr rfl
      | some z =>
        cases Option.some.inj h
        exact Or.inl rfl

theorem tier_stage_preserves (cur next : List (Option (Nat × ℚ)))
    (i : Nat) (x : Nat × ℚ) (hlen : next.length = cur.length)
    (h : cur[i]? = some (some x)) :
    (tier_stage cur next)[i]? = some (some x) := by
  unfold tier_stage
  split
  · exact fill_failed_preserves cur next i x hlen h
  · exact h

theorem tier_stage_source (cur next : List (Option (Nat × ℚ))) (j : Nat)
    (y : Nat × ℚ) (h : (tier_stage cur next)[j]? = some (some y)) :
    cur[j]? = some (some y) ∨ cur[j]? = some none := by
  unfold tier_stage at h
  split at h
  · exact fill_failed_source cur next j y h
  · exact Or.inl h

theorem snap_points_length (hav : Point → Point → ℚ) (net : RoadNetwork)
    (pts : List (Option Point)) (ms : Option (WithTop ℚ)) :
    (snap_points hav net pts ms).length = pts.length :=
  List.length_map _ _

theorem snap_tier2_length (hav : Point → Point → ℚ) (net : RoadNetwork)
    (primary secondary : ℚ) (pts : List (Option Point)) :
    (snap_tier2 hav net primary secondary pts).length = pts.length := by
  unfold snap_tier2 tier_stage
  split
  · unfold fill_failed
    rw [List.length_zipWith, snap_points_length]
    unfold snap_tier1
    rw [snap_points_length, min_self]
  · unfold snap_tier1
    exact snap_points_length _ _ _ _

/-- Claim C9 (confirmed): in the tiered batch snapping of
`_network_distance_map`, an entry snapped successfully at the primary
tolerance keeps exactly its node and offset through the secondary and
unconditional tiers, and any entry whose value after a later tier differs
from a successful earlier value can only have been unsnapped at every
earlier tier. -/
theorem tiered_snapping_frame (hav : Point → Point → ℚ)
    (net : RoadNetwork) (primary secondary : ℚ)
    (pts : List (Option Point)) (i : Nat) (x : Nat × ℚ)
    (h1 : (snap_tier1 hav net primary pts)[i]? = some (some x)) :
    (snap_tier2 hav net primary secondary pts)[i]? = some (some x) ∧
    (snap_tier3 hav net primary secondary pts)[i]? = some (some x) ∧
    (∀ (j : Nat) (y : Nat × ℚ),
      (snap_tier2 hav net primary secondary pts)[j]? =
        some (some y) →
      (snap_tier1 hav net primary pts)[j]? = some (some y) ∨
      (snap_tier1 hav net primary pts)[j]? = some none) ∧
    (∀ (j : Nat) (y : Nat × ℚ),
      (snap_tier3 hav net primary secondary pts)[j]? =
        some (some y) →
      (snap_tier2 hav net primary secondary pts)[j]? = some (some y) ∨
      (snap_tier2 hav net primary secondary pts)[j]? = some none) := by
  have hl1 : (snap_points hav net pts
      (some ((secondary : WithTop ℚ)))).length =
      (snap_tier1 hav net primary pts).length := by
    unfold snap_tier1
    rw [snap_points_length, snap_points_length]
  have h2 : (snap_tier2 hav net primary secondary pts)[i]? =
      some (some x) := tier_stage_preserves _ _ i x hl1 h1
  have hl2 : (snap_points hav net pts (some ⊤)).length =
      (snap_tier2 hav net primary secondary pts).length := by
    rw [snap_points_length, snap_tier2_length]
  refine ⟨h2, tier_stage_preserves _ _ i x hl2 h2, ?_, ?_⟩
  · intro j y hj
    exact tier_stage_source _ _ j y hj
  · intro j y hj
    exact tier_stage_source _ _ j y hj

theorem tiered_snapping_frame_witness :
    (snap_tier2 (fun p _ => p.1) ⟨[(0, 0)], [], 120⟩ 120 300
      [some (0, 0), some (400, 0)])[0]? = some (some (0, 0)) ∧
    (snap_tier3 (fun p _ => p.1) ⟨[(0, 0)], [], 120⟩ 120 300
      [some (0, 0), some (400, 0)])[0]? = some (some (0, 0)) ∧
    (∀ (j : Nat) (y : Nat × ℚ), (snap_tier2 (fun p _ => p.1) ⟨[(0, 0)], [], 120⟩ 120 300
        [some (0, 0), some (400, 0)])[j]? = some (some y) →
      (snap_tier1 (fun p _ => p.1) ⟨[(0, 0)], [], 120⟩ 120
        [some (0, 0), some (400, 0)])[j]? = some (some y) ∨
      (snap_tier1 (fun p _ => p.1) ⟨[(0, 0)], [], 120⟩ 120
        [some (0, 0), some (400, 0)])[j]? = some none) ∧
    (∀ (j : Nat) (y : Nat × ℚ), (snap_tier3 (fun p _ => p.1) ⟨[(0, 0)], [], 120⟩ 120 300
        [some (0, 0), some (400, 0)])[j]? = some (some y) →
      (snap_tier2 (fun p _ => p.1) ⟨[(0, 0)], [], 120⟩ 120 300
        [some (0, 0), some (400, 0)])[j]? = some (some y) ∨
      (snap_tier2 (fun p _ => p.1) ⟨[(0, 0)], [], 120⟩ 120 300
        [some (0, 0), some (400, 0)])[j]? = some none) :=
  tiered_snapping_frame (fun p _ => p.1) ⟨[(0, 0)], [], 120⟩ 120 300
    [some (0, 0), some (400, 0)] 0 (0, 0) (by rfl)

/-! Theorems about distance-mode equivalence. -/

/-- Claim C10 (confirmed): the distance-mode branches for "network" and
"auto" compute the same chosen distance in both `ring_summary` and
`nearby` — each POI gets the network distance when one is available and
the haversine distance otherwise — so the two modes produce identical
results for every input. -/
theorem network_mode_matches_auto (include_network : Bool)
    (hav_km : ℚ) (net_km : Option ℚ) (pois : List PoiEntry)
    (radii : List ℚ) :
    chosen_km SortMode.network hav_km net_km =
      chosen_km SortMode.auto hav_km net_km ∧
    nearby_chosen_km SortMode.network include_network hav_km net_km =
      nearby_chosen_km SortMode.auto include_network hav_km net_km ∧
    nearby_net_km_out include_network hav_km net_km =
      nearby_net_km_out include_network hav_km net_km ∧
    ring_counts SortMode.network pois radii =
      ring_counts SortMode.auto pois radii ∧
    chosen_km SortMode.auto hav_km net_km = net_km.getD hav_km :=
  ⟨rfl, rfl, rfl, rfl, rfl⟩

end SiteX
